import Mathlib

set_option maxHeartbeats 1000000

/-!
Verification development for the TRUTH_Xx repository.

The repository is a Next.js frontend.  The definitions below are a shallow
embedding of the code that decides the claims:

* `src/src/components/ResultsDashboard.tsx` — the result object merged from
  the API response and the mock table (`mockResults`, `buildFingerprint`,
  `buildStatus`, `buildAnomalies`, `buildInsights`, the `result` merge,
  `riskConfig`, `statusIcon`, `scoreColor`);
* `src/src/services/api.ts` — `checkBackendHealth`, `analyzeContent`;
* `src/src/app/analyze/page.tsx` — `analyzeFile` / `startRealAnalysis`;
* `src/src/context/AuthContext.tsx` and the login/signup pages;
* the history page `getScoreColor` helper.

JSON numbers are modelled as `ℚ`, JSON strings as `String`, absent fields as
`Option`.  JavaScript truthiness is modelled explicitly: the empty string and
the number 0 are falsy, every object (including the empty array) is truthy.
An object field that is absent and a field that is `null` are both modelled
as `none` (the code only distinguishes them through `??` versus `||`, and at
every use site below the two behave identically on `none`).
-/

/-- The four analysis tabs of the dashboard. -/
inductive Tab where
  | video
  | audio
  | text
  | image
deriving DecidableEq

structure TimelineItem where
  label : String
  tag : String
  color : String
  suspicious : Bool
deriving DecidableEq

/-- One point of the authenticity-drift chart (`{ t, v }`). -/
structure DriftPoint where
  t : String
  v : ℚ
deriving DecidableEq

/-- One fingerprint table entry; `sect` embeds the optional `section` field
(the word `section` itself is a Lean keyword). Mock entries carry no section. -/
structure FingerprintItem where
  label : String
  value : String
  suspicious : Bool
  sect : Option String := none
deriving DecidableEq

/-- The per-tab record stored in the dashboard's `mockResults` table. -/
structure MockResult where
  score : ℚ
  status : String
  risk : String
  confidence : ℚ
  anomalies : List String
  insights : List String
  timeline : List TimelineItem
  driftData : List DriftPoint
  fingerprint : List FingerprintItem
deriving DecidableEq

/-- JS `a || b` on an optional string: `none` and `""` are falsy. -/
def jsOrS (a : Option String) (b : String) : String :=
  match a with
  | some s => if s = "" then b else s
  | none => b

/-- JS `a || b` on two strings. -/
def jsOrStr (a b : String) : String := if a = "" then b else a

/-- JS `a || b` on an optional number: `none` and `0` are falsy. -/
def jsOrQ (a : Option ℚ) (b : ℚ) : ℚ :=
  match a with
  | some q => if q = 0 then b else q
  | none => b

/-- JS truthiness of an optional string. -/
def truthyS : Option String → Bool
  | some s => s != ""
  | none => false

/-- JS truthiness of an optional number. -/
def truthyQ : Option ℚ → Bool
  | some q => q != 0
  | none => false

/-- Models JS number-to-string interpolation for the numeric values used here. -/
def numStr (q : ℚ) : String :=
  if q.den = 1 then toString q.num else toString q

/-- Left-pads a digit string to width 3 with zeros (helper for `groupDigits`). -/
def pad3 (s : String) : String :=
  if s.length ≥ 3 then s else ⟨List.replicate (3 - s.length) '0'⟩ ++ s

/-- Models `Number.toLocaleString()` on a natural number: thousands separators. -/
def groupDigits (n : ℕ) : String :=
  if h : n < 1000 then toString n
  else groupDigits (n / 1000) ++ "," ++ pad3 (toString (n % 1000))
termination_by n
decreasing_by exact Nat.div_lt_self (by omega) (by omega)

/-- `toLocaleString` applied to a (nonnegative integral) JSON number. -/
def qLocale (q : ℚ) : String := groupDigits q.num.natAbs

/-- Models `x.toFixed(1)` for the nonnegative values used here. -/
def toFixed1 (q : ℚ) : String :=
  toString (round (q * 10) / 10 : ℤ) ++ "." ++ toString (round (q * 10) % 10 : ℤ)

/-- Models `x.toFixed(0)` for the nonnegative values used here. -/
def toFixed0 (q : ℚ) : String := toString (round q : ℤ)

/-- Models JS `s.includes(pat)` for a non-empty pattern. -/
def strIncludes (s pat : String) : Bool :=
  decide ((s.splitOn pat).length > 1)

/-- `video_analysis` / `text_analysis` ML payload of the API response. -/
structure MLResult where
  label : Option String := none
  confidence : ℚ := 0
  ai_probability : ℚ := 0
  human_probability : ℚ := 0
  per_frame : Option (List ℚ) := none
deriving DecidableEq

/-- One entry of `related_articles`. -/
structure Article where
  title : Option String := none
  similarity_score : Option ℚ := none
deriving DecidableEq

/-- One entry of `risk_assessment.flags`. -/
structure RiskFlag where
  label : String
  detail : String
deriving DecidableEq

structure RiskAssessment where
  flags : Option (List RiskFlag) := none
  authenticity_score : Option ℚ := none
deriving DecidableEq

/-- `metadata.file_info` of the API response. -/
structure FileInfo where
  file_name : Option String := none
  container_format : Option String := none
  file_size_mb : Option ℚ := none
  duration_human : Option String := none
  duration_seconds : Option ℚ := none
  total_bitrate_kbps : Option ℚ := none
  nb_streams : Option ℚ := none
deriving DecidableEq

/-- `metadata.video` of the API response.  `bitrate_kbps` and `color_space`
arrive as strings (the backend substitutes "N/A" / "unknown"). -/
structure VideoMeta where
  codec : Option String := none
  profile : Option String := none
  resolution : Option String := none
  display_aspect_ratio : Option String := none
  fps : Option ℚ := none
  avg_fps : Option ℚ := none
  bitrate_kbps : String := "N/A"
  pixel_format : Option String := none
  bit_depth : Option ℚ := none
  color_space : String := "unknown"
  total_frames : Option ℚ := none
  rotation : Option String := none
  width : Option ℚ := none
deriving DecidableEq

/-- `metadata.audio` of the API response. -/
structure AudioMeta where
  codec : Option String := none
  profile : Option String := none
  sample_rate_hz : Option ℚ := none
  channels : Option ℚ := none
  channel_layout : Option String := none
  bitrate_kbps : String := "N/A"
  language : Option String := none
deriving DecidableEq

/-- `metadata.tags` of the API response. -/
structure MediaTags where
  camera_device : Option String := none
  manufacturer : Option String := none
  software_version : Option String := none
  gps_location : Option String := none
  creation_time : Option String := none
  encoder : Option String := none
  major_brand : Option String := none
  title : Option String := none
  comment : Option String := none
deriving DecidableEq

/-- `metadata` of the API response.  A present-but-empty metadata object and
an absent one are both modelled as `none`: the component treats them
identically (`hasMetadata` checks `Object.keys(...).length > 0` and all field
reads fall back to `{}`). -/
structure ApiMetadata where
  original_filename : Option String := none
  file_info : Option FileInfo := none
  video : Option VideoMeta := none
  audio : Option AudioMeta := none
  tags : Option MediaTags := none
deriving DecidableEq

/-- The `apiResult` prop handed to `ResultsDashboard`. -/
structure ApiResult where
  video_analysis : Option MLResult := none
  text_analysis : Option MLResult := none
  related_articles : Option (List Article) := none
  models_used : Option String := none
  metadata : Option ApiMetadata := none
  risk_assessment : Option RiskAssessment := none
  score : Option ℚ := none
  risk_level : Option String := none
  drift_data : Option (List DriftPoint) := none
deriving DecidableEq

/-- `const videoML = apiResult?.video_analysis`. -/
def videoML (api : Option ApiResult) : Option MLResult :=
  api.bind ApiResult.video_analysis

/-- `const textML = apiResult?.text_analysis`. -/
def textML (api : Option ApiResult) : Option MLResult :=
  api.bind ApiResult.text_analysis

/-- `const relatedArticles = apiResult?.related_articles || []`. -/
def relatedArticles (api : Option ApiResult) : List Article :=
  (api.bind ApiResult.related_articles).getD []

/-- `const hasMetadata = !!apiResult?.metadata && Object.keys(...).length > 0`. -/
def hasMetadata (api : Option ApiResult) : Bool :=
  (api.bind ApiResult.metadata).isSome

/-- `const hasML = !!videoML || !!textML`. -/
def hasML (api : Option ApiResult) : Bool :=
  (videoML api).isSome || (textML api).isSome

/-- `const hasRealData = hasMetadata || hasML || (apiResult?.score !== undefined)`. -/
def hasRealData (api : Option ApiResult) : Bool :=
  hasMetadata api || hasML api || (api.bind ApiResult.score).isSome

/-- `const realMeta = apiResult?.metadata || {}`. -/
def realMeta (api : Option ApiResult) : ApiMetadata :=
  (api.bind ApiResult.metadata).getD {}

/-- `const realRisk = apiResult?.risk_assessment || {}`. -/
def realRisk (api : Option ApiResult) : RiskAssessment :=
  (api.bind ApiResult.risk_assessment).getD {}

/-- `const realScore = apiResult?.score ?? null`. -/
def realScore (api : Option ApiResult) : Option ℚ :=
  api.bind ApiResult.score

/-- `const realRiskLevel = apiResult?.risk_level ?? null`. -/
def realRiskLevel (api : Option ApiResult) : Option String :=
  api.bind ApiResult.risk_level

/-- The dashboard's hard-coded `mockResults` table.  The table is a module
constant in the source except that the image fingerprint's Timestamp value is
`new Date().toLocaleString(...)`; the formatted wall-clock string is therefore
taken as the parameter `now`. -/
def mockResults (now : String) : Tab → MockResult
  | Tab.video =>
    { score := 18
      status := "AI-Generated"
      risk := "high"
      confidence := 94
      anomalies :=
        [ "Facial blending artifacts detected at frames 142–189"
        , "Eye blink pattern inconsistent with natural behavior"
        , "Lighting discontinuity around jaw and hairline"
        , "GAN fingerprint signature detected in pixel distribution"
        , "Audio-visual sync drift +230ms at 0:14" ]
      insights :=
        [ "This video shows strong indicators of a face-swap deepfake. The facial region has been digitally replaced using a generative AI model."
        , "Natural eye blinking occurs 15–20 times per minute. This video shows irregular blinking that does not match normal human patterns."
        , "The audio does not perfectly match the lip movements — a common sign of synthetic media." ]
      timeline :=
        [ ⟨"Original upload", "Source detected", "#00ff9d", false⟩
        , ⟨"Frame manipulation", "Edited", "#ffd700", true⟩
        , ⟨"Audio replacement", "Synthetic voice", "#ff6b35", true⟩
        , ⟨"Re-encoded", "Reused Media", "#ffd700", true⟩
        , ⟨"Social post", "Reposted 142x", "#a855f7", false⟩
        , ⟨"Flagged by TRUTH X", "Possible Manipulation", "#ff4444", true⟩ ]
      driftData :=
        [ ⟨"0s", 82⟩, ⟨"5s", 78⟩, ⟨"10s", 71⟩, ⟨"15s", 34⟩
        , ⟨"20s", 22⟩, ⟨"25s", 19⟩, ⟨"30s", 16⟩, ⟨"35s", 18⟩ ]
      fingerprint :=
        [ ⟨"File Hash (SHA-256)", "a1f4...d892", false, none⟩
        , ⟨"Creation Date", "2026-01-12 03:42 UTC", true, none⟩
        , ⟨"GPS Metadata", "Stripped — suspicious", true, none⟩
        , ⟨"Software Tag", "FaceSwap v2.3.1", true, none⟩
        , ⟨"Resolution", "1920×1080 (upscaled)", true, none⟩
        , ⟨"Codec", "H.264 — re-encoded", false, none⟩ ] }
  | Tab.audio =>
    { score := 31
      status := "Synthetic Voice"
      risk := "high"
      confidence := 91
      anomalies :=
        [ "Voice frequency spectrum shows TTS neural pattern"
        , "Prosody pattern matches ElevenLabs voice model"
        , "No natural breathing pauses detected between sentences"
        , "Formant transitions too smooth — unnatural"
        , "Background noise artificially added post-synthesis" ]
      insights :=
        [ "This audio clip appears to be generated using a neural text-to-speech (TTS) system, commonly used in AI voice scam calls."
        , "Natural human speech contains micro-pauses, breath sounds, and slight frequency variations. This audio is unusually clean — a sign of synthesis."
        , "The voice model matches a known commercial voice cloning platform with 91% confidence." ]
      timeline :=
        [ ⟨"Voice sample source", "Public recording", "#00ff9d", false⟩
        , ⟨"Voice cloned", "Synthetic Voice", "#ff4444", true⟩
        , ⟨"Script generated", "AI Text", "#ffd700", true⟩
        , ⟨"Call initiated", "Scam attempt", "#ff4444", true⟩
        , ⟨"Flagged by TRUTH X", "Possible Manipulation", "#ff4444", true⟩ ]
      driftData :=
        [ ⟨"0s", 70⟩, ⟨"3s", 65⟩, ⟨"6s", 50⟩, ⟨"9s", 35⟩
        , ⟨"12s", 28⟩, ⟨"15s", 32⟩, ⟨"18s", 29⟩, ⟨"21s", 31⟩ ]
      fingerprint :=
        [ ⟨"Audio Hash", "c8b2...f441", false, none⟩
        , ⟨"Sample Rate", "22050 Hz (TTS default)", true, none⟩
        , ⟨"Bit Depth", "16-bit PCM", false, none⟩
        , ⟨"Voice Model Match", "ElevenLabs — 91% match", true, none⟩
        , ⟨"Duration", "42.3 seconds", false, none⟩
        , ⟨"Background Noise", "Artificially added", true, none⟩ ] }
  | Tab.text =>
    { score := 72
      status := "Partially AI-Generated"
      risk := "medium"
      confidence := 83
      anomalies :=
        [ "Burstiness score 0.12 — below human threshold (0.4+)"
        , "Perplexity anomalies in paragraphs 2, 4, and 6"
        , "Repetitive sentence structure typical of LLM output"
        , "4 factual claims could not be verified against known sources"
        , "Publication date inconsistency detected" ]
      insights :=
        [ "This article shows mixed signals — some sections appear human-written, others show strong AI generation patterns."
        , "AI-generated text tends to have a more uniform \x27burstiness\x27 — meaning sentences are similarly structured. Human writing is more varied."
        , "While the article is not entirely fabricated, key statistics cited in paragraphs 2 and 4 could not be verified and may be hallucinated by an AI model." ]
      timeline :=
        [ ⟨"Article published", "Original post", "#00ff9d", false⟩
        , ⟨"Partially rewritten", "AI-assisted edit", "#ffd700", true⟩
        , ⟨"Stats altered", "Context Changed", "#ff6b35", true⟩
        , ⟨"Reshared as news", "Reused Media", "#ffd700", true⟩
        , ⟨"Flagged by TRUTH X", "Possible Manipulation", "#ff4444", true⟩ ]
      driftData :=
        [ ⟨"P1", 85⟩, ⟨"P2", 72⟩, ⟨"P3", 80⟩
        , ⟨"P4", 55⟩, ⟨"P5", 75⟩, ⟨"P6", 60⟩, ⟨"P7", 70⟩ ]
      fingerprint :=
        [ ⟨"Word Count", "1,240 words", false, none⟩
        , ⟨"Burstiness Score", "0.12 (below 0.4 threshold)", true, none⟩
        , ⟨"Author", "Unknown / No byline", true, none⟩
        , ⟨"Publication Date", "3 days in future", true, none⟩
        , ⟨"Domain Age", "Created 4 weeks ago", true, none⟩
        , ⟨"Citations", "2/6 verifiable", true, none⟩ ] }
  | Tab.image =>
    { score := 91
      status := "Authentic"
      risk := "low"
      confidence := 97
      anomalies :=
        [ "No GAN fingerprint detected"
        , "EXIF metadata consistent with claimed device"
        , "Noise distribution matches natural camera sensor" ]
      insights :=
        [ "This image shows no signs of digital manipulation or AI generation. The pixel distribution, noise pattern, and metadata are all consistent with a genuine photograph."
        , "The EXIF data matches an authentic Canon EOS R5 camera with standard settings."
        , "No signs of copy-paste manipulation, cloning, or AI upscaling were found." ]
      timeline :=
        [ ⟨"Photo taken", "Original capture", "#00ff9d", false⟩
        , ⟨"Minor color correction", "Minor edit", "#00d4ff", false⟩
        , ⟨"Published online", "Social share", "#a855f7", false⟩
        , ⟨"Verified by TRUTH X", "Authentic", "#00ff9d", false⟩ ]
      driftData :=
        [ ⟨"R1", 92⟩, ⟨"R2", 90⟩, ⟨"R3", 93⟩
        , ⟨"R4", 91⟩, ⟨"R5", 94⟩, ⟨"R6", 89⟩ ]
      fingerprint :=
        [ ⟨"File Hash (SHA-256)", "9e7c...a201", false, none⟩
        , ⟨"Device", "Canon EOS R5", false, none⟩
        , ⟨"GPS Location", "Present & consistent", false, none⟩
        , ⟨"Software", "Adobe Lightroom (minor edit)", false, none⟩
        , ⟨"Timestamp", now, false, none⟩
        , ⟨"Resolution", "8192×5464 (original)", false, none⟩ ] }

/-- Optional fingerprint entry guarded by JS truthiness of a string field
(`if (x) items.push(mk(x))`). -/
def optItemS (x : Option String) (mk : String → FingerprintItem) : List FingerprintItem :=
  match x with
  | some s => if s = "" then [] else [mk s]
  | none => []

/-- The Total Bitrate suspicion rule of `buildFingerprint`:
`fi.total_bitrate_kbps > 0 && fi.total_bitrate_kbps < 2000 && (vid.width || 0) >= 1920`. -/
def bitrateSuspicious (tb width : Option ℚ) : Bool :=
  match tb with
  | some q => decide (0 < q) && decide (q < 2000) && decide (1920 ≤ jsOrQ width 0)
  | none => false

/-- `${vid.codec}${vid.profile && vid.profile !== "unknown" ? ` (${vid.profile})` : ""}`. -/
def profileSuffix (p : Option String) : String :=
  match p with
  | some s => if s ≠ "" ∧ s ≠ "unknown" then " (" ++ s ++ ")" else ""
  | none => ""

/-- The Frame Rate value string of `buildFingerprint`. -/
def fpsValue (vid : VideoMeta) : String :=
  (match vid.fps with
   | some f => if f = 0 then "N/A" else numStr f
   | none => "N/A")
  ++ " fps"
  ++ (match vid.avg_fps with
      | some a => if a ≠ 0 ∧ some a ≠ vid.fps then " (avg: " ++ numStr a ++ ")" else ""
      | none => "")

/-- The File section of `buildFingerprint` (always pushed on the real path). -/
def fileItems (md : ApiMetadata) (fi : FileInfo) (vid : VideoMeta) : List FingerprintItem :=
  [ { label := "File Name", value := jsOrS md.original_filename (jsOrS fi.file_name "Unknown"),
      suspicious := false, sect := some "File" }
  , { label := "Container Format", value := jsOrS fi.container_format "Unknown",
      suspicious := false, sect := some "File" }
  , { label := "File Size",
      value := match fi.file_size_mb with
               | some q => if q = 0 then "N/A" else numStr q ++ " MB"
               | none => "N/A",
      suspicious := false, sect := some "File" }
  , { label := "Duration", value := jsOrS fi.duration_human (numStr (jsOrQ fi.duration_seconds 0) ++ "s"),
      suspicious := false, sect := some "File" }
  , { label := "Total Bitrate",
      value := match fi.total_bitrate_kbps with
               | some q => if q = 0 then "N/A" else numStr q ++ " kbps"
               | none => "N/A",
      suspicious := bitrateSuspicious fi.total_bitrate_kbps vid.width, sect := some "File" }
  , { label := "Streams", value := numStr (jsOrQ fi.nb_streams 0),
      suspicious := false, sect := some "File" } ]

/-- The Video section of `buildFingerprint` (pushed when `vid.codec` is truthy). -/
def videoItems (vid : VideoMeta) : List FingerprintItem :=
  match vid.codec with
  | none => []
  | some c =>
    if c = "" then [] else
    [ { label := "Video Codec", value := c ++ profileSuffix vid.profile,
        suspicious := false, sect := some "Video" }
    , { label := "Resolution", value := jsOrS vid.resolution "N/A",
        suspicious := false, sect := some "Video" }
    , { label := "Aspect Ratio", value := jsOrS vid.display_aspect_ratio "N/A",
        suspicious := false, sect := some "Video" }
    , { label := "Frame Rate", value := fpsValue vid,
        suspicious := false, sect := some "Video" }
    , { label := "Video Bitrate",
        value := if vid.bitrate_kbps ≠ "N/A" then vid.bitrate_kbps ++ " kbps" else "N/A",
        suspicious := false, sect := some "Video" }
    , { label := "Pixel Format", value := jsOrS vid.pixel_format "unknown",
        suspicious := false, sect := some "Video" }
    , { label := "Bit Depth", value := numStr (jsOrQ vid.bit_depth 8) ++ "-bit",
        suspicious := false, sect := some "Video" }
    , { label := "Color Space", value := if vid.color_space ≠ "unknown" then vid.color_space else "N/A",
        suspicious := false, sect := some "Video" } ]
    ++ (match vid.total_frames with
        | some tf => if tf = 0 then [] else
            [ { label := "Total Frames", value := qLocale tf, suspicious := false, sect := some "Video" } ]
        | none => [])
    ++ (match vid.rotation with
        | some r => if r ≠ "" ∧ r ≠ "0" then
            [ { label := "Rotation", value := r ++ "°", suspicious := false, sect := some "Video" } ]
          else []
        | none => [])

/-- The Audio section of `buildFingerprint` (pushed when `aud.codec` is truthy). -/
def audioItems (aud : AudioMeta) : List FingerprintItem :=
  match aud.codec with
  | none => []
  | some c =>
    if c = "" then [] else
    [ { label := "Audio Codec",
        value := c ++ (match aud.profile with
                       | some p => if p ≠ "" then " (" ++ p ++ ")" else ""
                       | none => ""),
        suspicious := false, sect := some "Audio" }
    , { label := "Sample Rate",
        value := match aud.sample_rate_hz with
                 | some q => if q = 0 then "N/A" else qLocale q ++ " Hz"
                 | none => "N/A",
        suspicious := false, sect := some "Audio" }
    , { label := "Channels",
        value := (match aud.channels with
                  | some ch => if ch = 0 then "?" else numStr ch
                  | none => "?")
                 ++ " (" ++ jsOrS aud.channel_layout "unknown" ++ ")",
        suspicious := false, sect := some "Audio" }
    , { label := "Audio Bitrate",
        value := if aud.bitrate_kbps ≠ "N/A" then aud.bitrate_kbps ++ " kbps" else "N/A",
        suspicious := false, sect := some "Audio" } ]
    ++ optItemS (match aud.language with
                 | some l => if l ≠ "unknown" then some l else none
                 | none => none)
        (fun l => { label := "Language", value := l, suspicious := false, sect := some "Audio" })

/-- The Device section of `buildFingerprint`. -/
def deviceItems (tags : MediaTags) : List FingerprintItem :=
  optItemS tags.camera_device
    (fun v => { label := "Camera / Device", value := v, suspicious := false, sect := some "Device" })
  ++ optItemS tags.manufacturer
    (fun v => { label := "Manufacturer", value := v, suspicious := false, sect := some "Device" })
  ++ optItemS tags.software_version
    (fun v => { label := "Software", value := v, suspicious := false, sect := some "Device" })

/-- The GPS section of `buildFingerprint`: always one entry, suspicious
exactly when the `gps_location` tag is missing (falsy). -/
def gpsItems (tags : MediaTags) : List FingerprintItem :=
  match tags.gps_location with
  | some g =>
    if g = "" then
      [ { label := "GPS Location", value := "Not available", suspicious := true, sect := some "Location" } ]
    else
      [ { label := "GPS Location", value := g, suspicious := false, sect := some "Location" } ]
  | none =>
    [ { label := "GPS Location", value := "Not available", suspicious := true, sect := some "Location" } ]

/-- The Tags section of `buildFingerprint`; a present Encoder tag is always
flagged suspicious. -/
def tagItems (tags : MediaTags) : List FingerprintItem :=
  optItemS tags.creation_time
    (fun v => { label := "Creation Time", value := v, suspicious := false, sect := some "Tags" })
  ++ optItemS tags.encoder
    (fun v => { label := "Encoder", value := v, suspicious := true, sect := some "Tags" })
  ++ optItemS tags.major_brand
    (fun v => { label := "Major Brand", value := v, suspicious := false, sect := some "Tags" })
  ++ optItemS tags.title
    (fun v => { label := "Title", value := v, suspicious := false, sect := some "Tags" })
  ++ optItemS tags.comment
    (fun v => { label := "Comment", value := v, suspicious := false, sect := some "Tags" })

/-- `buildFingerprint`: mock fingerprint when there is no real data, else the
File/Video/Audio/Device/Location/Tags sections built from `realMeta`. -/
def buildFingerprint (now : String) (tab : Tab) (api : Option ApiResult) : List FingerprintItem :=
  if hasRealData api = false then (mockResults now tab).fingerprint else
  fileItems (realMeta api) ((realMeta api).file_info.getD {}) ((realMeta api).video.getD {})
  ++ videoItems ((realMeta api).video.getD {})
  ++ audioItems ((realMeta api).audio.getD {})
  ++ deviceItems ((realMeta api).tags.getD {})
  ++ gpsItems ((realMeta api).tags.getD {})
  ++ tagItems ((realMeta api).tags.getD {})

/-- `buildStatus`: ML labels first, then the 70/40 score tiers, else mock. -/
def buildStatus (now : String) (tab : Tab) (api : Option ApiResult) : String :=
  match (match videoML api with
         | some m => (match m.label with
                      | some l => if l ≠ "" ∧ l ≠ "unknown" then
                          (if l = "fake" then some "Deepfake Detected"
                           else if l = "real" then some "Likely Authentic" else none)
                        else none
                      | none => none)
         | none => none) with
  | some s => s
  | none =>
    match (match textML api with
           | some m => (match m.label with
                        | some l => if l ≠ "" ∧ l ≠ "unknown" then
                            (if l = "ai-generated" then some "AI-Generated Text"
                             else if l = "human-written" then some "Human-Written" else none)
                          else none
                        | none => none)
           | none => none) with
    | some s => s
    | none =>
      if hasRealData api = true ∧ (realScore api).isSome then
        (if (realScore api).getD 0 ≥ 70 then "Likely Authentic"
         else if (realScore api).getD 0 ≥ 40 then "Suspicious"
         else "AI-Generated / Manipulated")
      else (mockResults now tab).status

/-- The `items` array assembled inside `buildAnomalies`: entries derived from
`risk_assessment.flags` plus the synthesized deepfake / AI-text entries. -/
def anomalyItems (api : Option ApiResult) : List String :=
  let flags := ((realRisk api).flags).getD []
  let base := if flags.length > 0 then flags.map (fun f => f.label ++ ": " ++ f.detail) else []
  let withDeepfake := base ++
    (match videoML api with
     | some m =>
       if m.label = some "fake" ∧ ¬ (base.any (fun i => strIncludes i "Deepfake")) then
         ["Deepfake Detected: ML model confidence " ++ toFixed1 (m.confidence * 100) ++ "%"]
       else []
     | none => [])
  withDeepfake ++
    (match textML api with
     | some m =>
       if m.label = some "ai-generated" then
         ["AI-Generated Text: " ++ toFixed1 (m.ai_probability * 100) ++ "% probability"]
       else []
     | none => [])

/-- `buildAnomalies`: with real data the derived items are returned as-is
(possibly empty); otherwise the mock anomalies serve as fallback. -/
def buildAnomalies (now : String) (tab : Tab) (api : Option ApiResult) : List String :=
  if hasRealData api = true then anomalyItems api
  else if (anomalyItems api).length > 0 then anomalyItems api
  else (mockResults now tab).anomalies

/-- The video part of `buildInsights`. -/
def videoInsight : Option MLResult → List String
  | some m =>
    (match m.label with
     | some l =>
       if l ≠ "" ∧ l ≠ "unknown" then
         (if l = "fake" then
           ["The deepfake detection model classified this video as FAKE with "
            ++ toFixed1 (m.confidence * 100) ++ "% confidence. "
            ++ (match m.per_frame with
                | some pf => toString pf.length ++ " frames were analyzed."
                | none => "")]
         else
           ["The deepfake detection model classified this video as REAL with "
            ++ toFixed1 (m.confidence * 100)
            ++ "% confidence. No manipulation artifacts were detected in the analyzed frames."])
       else []
     | none => [])
  | none => []

/-- The text part of `buildInsights`. -/
def textInsight : Option MLResult → List String
  | some m =>
    (match m.label with
     | some l =>
       if l ≠ "" ∧ l ≠ "unknown" then
         (if l = "ai-generated" then
           ["The AI text detector identified this content as AI-generated with "
            ++ toFixed1 (m.ai_probability * 100)
            ++ "% probability. The text shows patterns consistent with large language model output."]
         else
           ["The AI text detector identified this content as human-written with "
            ++ toFixed1 (m.human_probability * 100) ++ "% probability."])
       else []
     | none => [])
  | none => []

/-- The related-articles part of `buildInsights`. -/
def articleInsight (l : List Article) : List String :=
  match l with
  | [] => []
  | top :: rest =>
    ["Found " ++ toString (rest.length + 1) ++ " related fact-check article(s). Top match: \""
     ++ jsOrS top.title "Untitled" ++ "\" (similarity: "
     ++ toFixed0 (jsOrQ top.similarity_score 0 * 100) ++ "%)."]

/-- `buildInsights`: derived insights, else the mock insights. -/
def buildInsights (now : String) (tab : Tab) (api : Option ApiResult) : List String :=
  let items := videoInsight (videoML api) ++ textInsight (textML api)
               ++ articleInsight (relatedArticles api)
  if items.length > 0 then items else (mockResults now tab).insights

/-- The merged `result` object assembled by `ResultsDashboard`. -/
structure ResultObj where
  score : ℚ
  risk : String
  status : String
  confidence : ℚ
  fingerprint : List FingerprintItem
  anomalies : List String
  insights : List String
  driftData : List DriftPoint
  timeline : List TimelineItem
deriving DecidableEq

/-- `const result = { ...mock, score: realScore ?? mock.score, ... }`. -/
def buildResult (now : String) (tab : Tab) (api : Option ApiResult) : ResultObj :=
  { score := (realScore api).getD (mockResults now tab).score
    risk := (realRiskLevel api).getD (mockResults now tab).risk
    status := buildStatus now tab api
    confidence := ((realRisk api).authenticity_score).getD (mockResults now tab).confidence
    fingerprint := buildFingerprint now tab api
    anomalies := buildAnomalies now tab api
    insights := buildInsights now tab api
    driftData := match api.bind ApiResult.drift_data with
                 | some l => if l.length > 0 then l else (mockResults now tab).driftData
                 | none => (mockResults now tab).driftData
    timeline := (mockResults now tab).timeline }

/-- The dashboard's `riskConfig` lookup object (`undefined` off the three keys). -/
structure RiskCfg where
  color : String
  bg : String
  border : String
  label : String
deriving DecidableEq

def riskConfig : String → Option RiskCfg
  | "low" => some { color := "#00ff9d", bg := "rgba(0, 255, 157, 0.1)",
                    border := "rgba(0, 255, 157, 0.2)", label := "LOW RISK" }
  | "medium" => some { color := "#ffd700", bg := "rgba(255, 215, 0, 0.1)",
                       border := "rgba(255, 215, 0, 0.2)", label := "MEDIUM RISK" }
  | "high" => some { color := "#ff4444", bg := "rgba(255, 68, 68, 0.1)",
                     border := "rgba(255, 68, 68, 0.2)", label := "HIGH RISK" }
  | _ => none

/-- The three status icons the dashboard can render beside the score. -/
inductive StatusIcon where
  | checkCircle
  | alertTriangle
  | xCircle
deriving DecidableEq

/-- `result.score >= 75 ? CheckCircle : result.score >= 45 ? AlertTriangle : XCircle`. -/
def statusIcon (score : ℚ) : StatusIcon :=
  if score ≥ 75 then StatusIcon.checkCircle
  else if score ≥ 45 then StatusIcon.alertTriangle
  else StatusIcon.xCircle

/-- `const scoreColor = result.score >= 75 ? "#00ff9d" : result.score >= 45 ? "#ffd700" : "#ff4444"`. -/
def scoreColor (score : ℚ) : String :=
  if score ≥ 75 then "#00ff9d" else if score ≥ 45 then "#ffd700" else "#ff4444"

/-- `getScoreColor` from the history page (src/unnamed/part_003). -/
def getScoreColor (score : ℚ) : String :=
  if score ≥ 75 then "#00ff9d" else if score ≥ 45 then "#ffd700" else "#ff4444"

/-- Outcome of a browser `fetch`: either an HTTP response with a status code,
or a thrown network error. -/
inductive FetchOutcome where
  | response (status : ℕ)
  | networkError
deriving DecidableEq

/-- `Response.ok` per the fetch specification: status in the range 200–299. -/
def resOk (status : ℕ) : Bool :=
  if 200 ≤ status ∧ status ≤ 299 then true else false

/-- `checkBackendHealth` from src/src/services/api.ts: `res.ok` on a response,
`false` when `fetch` throws; it is a total Bool-valued function (never throws). -/
def checkBackendHealth : FetchOutcome → Bool
  | FetchOutcome.response s => resOk s
  | FetchOutcome.networkError => false

/-- A browser `File` (name and size in bytes); any File object is truthy. -/
structure JsFile where
  name : String
  size : ℚ
deriving DecidableEq

/-- The multipart body built by `analyzeContent`: an optional binary `video`
field and an optional text `query` field. -/
structure FormData where
  video : Option JsFile := none
  query : Option String := none
deriving DecidableEq

/-- `analyzeContent(file, text)` from src/src/services/api.ts: appends the
`video` field when the file is present and the `query` field when the text is
truthy (non-empty) — with no exclusivity check between the two. -/
def analyzeContent (file : Option JsFile) (text : Option String) : FormData :=
  { video := file
    query := match text with
             | some t => if t = "" then none else some t
             | none => none }

/-- The request built by `startRealAnalysis` in src/src/app/analyze/page.tsx:
`const query = textInput || urlInput; analyzeContent(uploadedFile, query)`. -/
def startRealAnalysisRequest (uploadedFile : Option JsFile) (textInput urlInput : String) : FormData :=
  analyzeContent uploadedFile (some (jsOrStr textInput urlInput))

/-- Models JS `s.trim()`: strips leading and trailing whitespace. -/
def jsTrim (s : String) : String :=
  ⟨((s.data.dropWhile Char.isWhitespace).reverse.dropWhile Char.isWhitespace).reverse⟩

/-- Control-flow outcome of `analyzeFile` in src/src/app/analyze/page.tsx. -/
inductive AnalyzeOutcome where
  | noInput
  | backendDown
  | started (fd : FormData)
deriving DecidableEq

/-- `analyzeFile`: return early when no input is present, abort when the
health probe fails, otherwise hand the built request to the backend. -/
def analyzeFile (uploadedFile : Option JsFile) (textInput urlInput : String)
    (health : FetchOutcome) : AnalyzeOutcome :=
  if uploadedFile.isNone ∧ jsTrim textInput = "" ∧ jsTrim urlInput = "" then AnalyzeOutcome.noInput
  else if checkBackendHealth health = false then AnalyzeOutcome.backendDown
  else AnalyzeOutcome.started (startRealAnalysisRequest uploadedFile textInput urlInput)

/-- The user object of AuthContext (`{ email }`). -/
structure AuthUser where
  email : String
deriving DecidableEq

/-- The browser-visible state AuthContext manipulates: the react `user`
state, the localStorage value stored under the key "truth_x_user", and the
current route. -/
structure AuthState where
  user : Option AuthUser := none
  storage : Option String := none
  route : String := "/"
deriving DecidableEq

/-- `JSON.stringify({ email })`. -/
def userJson (email : String) : String :=
  "\x7b\"email\":\"" ++ email ++ "\"\x7d"

/-- `login` from src/src/context/AuthContext.tsx. -/
def login (email : String) (st : AuthState) : AuthState :=
  { user := some { email := email }, storage := some (userJson email), route := "/" }

/-- `signup` from src/src/context/AuthContext.tsx (identical body to `login`). -/
def signup (email : String) (st : AuthState) : AuthState :=
  { user := some { email := email }, storage := some (userJson email), route := "/" }

/-- `logout` from src/src/context/AuthContext.tsx. -/
def logout (st : AuthState) : AuthState :=
  { user := none, storage := none, route := "/login" }

/-- `isAuthenticated: !!user`. -/
def isAuthenticated (st : AuthState) : Bool := st.user.isSome

/-- `handleSubmit` of the login page: calls `login(email)`; the password state
is never passed on. -/
def handleSubmitLogin (email password : String) (st : AuthState) : AuthState :=
  login email st

/-- `handleSubmit` of the signup page: calls `signup(email)`; the name and
password states are never passed on. -/
def handleSubmitSignup (name email password : String) (st : AuthState) : AuthState :=
  signup email st

/-- The spec's fixed score-to-risk tiering: score≥75 → low, 45≤score<75 →
medium, score<45 → high. -/
def riskOfScore (s : ℚ) : String :=
  if s ≥ 75 then "low" else if s ≥ 45 then "medium" else "high"

/-- The icon the spec's tiering associates with each risk level. -/
def iconOfRisk : String → Option StatusIcon
  | "low" => some StatusIcon.checkCircle
  | "medium" => some StatusIcon.alertTriangle
  | "high" => some StatusIcon.xCircle
  | _ => none

/-- Typed endpoint errors of the analysis backend (spec §4.6). -/
inductive AnalyzeError where
  | invalidRequest
  | contentTooLarge
  | unsupportedFormat
  | backendUnavailable
  | internalError
deriving DecidableEq

/-- Upload modalities (spec §3 `declared_kind`). -/
inductive Modality where
  | video
  | audio
  | image
  | text
deriving DecidableEq

/-- Modelled from the spec: the detectors the Orchestrator fans out to per
declared kind (spec §4.3); the backend (`backend.api`, started by
start_backend.ps1) is not part of the repository sources. -/
def applicableDetectors : Modality → List String
  | Modality.video => ["video-deepfake", "audio-voiceclone", "metadata-forensics"]
  | Modality.audio => ["audio-voiceclone", "metadata-forensics"]
  | Modality.image => ["image-manipulation", "metadata-forensics"]
  | Modality.text => ["text-origin", "related-article"]

/-- The upload size limit advertised by the UI ("Max 500MB") and fixed by the
spec (§4.1, §6). -/
def MAX_UPLOAD_MB : ℚ := 500

/-- Observable outcome of one upload request at the endpoint. -/
structure EndpointOutcome where
  error : Option AnalyzeError
  detectorsInvoked : ℕ
  contentPersisted : Bool
deriving DecidableEq

/-- Modelled from the spec: the Request Endpoint + Ephemeral Content Store
`put` size gate, which is backend code absent from src/ (only the frontend
caller and the "Max 500MB" label are present).  Per spec §4.1 the size limit
is enforced at `put` (reject >500MB with ContentTooLarge) and per §7 a client
input error is reported immediately, with no detector invocation and no
content persisted; otherwise the content is stored and the applicable
detectors are dispatched. -/
def handleUpload (sizeMB : ℚ) (m : Modality) : EndpointOutcome :=
  if sizeMB > MAX_UPLOAD_MB then
    { error := some AnalyzeError.contentTooLarge, detectorsInvoked := 0, contentPersisted := false }
  else
    { error := none, detectorsInvoked := (applicableDetectors m).length, contentPersisted := true }

/-- Sample response carrying only a numeric score (real data, no risk_level). -/
def apiScoreOnly : ApiResult := { score := some 10 }

/-- Sample response carrying no data at all. -/
def emptyApi : ApiResult := {}

/-- Sample metadata for a real-data fingerprint: no GPS tag, an encoder tag,
a low bitrate at full-HD width. -/
def sampleTags : MediaTags := { encoder := some "Lavf58.29.100" }

def sampleFileInfo : FileInfo := { total_bitrate_kbps := some 1500 }

def sampleVideoMeta : VideoMeta := { codec := some "h264", width := some 1920 }

def sampleMetadata : ApiMetadata :=
  { file_info := some sampleFileInfo, video := some sampleVideoMeta, tags := some sampleTags }

def sampleApi : ApiResult := { metadata := some sampleMetadata }

/-- Consistency of the displayed risk with the displayed score under the
75/45 tiering, together with the matching threshold coloring of the score
ring, the risk badge and the status icon. -/
def C1Prop (now : String) (tab : Tab) (api : Option ApiResult) : Prop :=
  (buildResult now tab api).risk = riskOfScore (buildResult now tab api).score
  ∧ (riskConfig (buildResult now tab api).risk).map RiskCfg.color
      = some (scoreColor (buildResult now tab api).score)
  ∧ iconOfRisk (buildResult now tab api).risk = some (statusIcon (buildResult now tab api).score)
  ∧ getScoreColor (buildResult now tab api).score = scoreColor (buildResult now tab api).score

/-- A response is tier-consistent when it supplies score and risk_level
either both absent, or both present with `risk_level` matching the score
tier — which the spec guarantees for the backend response. -/
def apiConsistent : Option ApiResult → Prop
  | none => True
  | some a => (a.score = none ∧ a.risk_level = none)
      ∨ (∃ s, a.score = some s ∧ a.risk_level = some (riskOfScore s))

/-- The C7 suspicion rules over the built fingerprint: the GPS entry exists
(in section Location) and is suspicious exactly when the `gps_location` tag
is missing; an Encoder entry exists exactly when the `encoder` tag is
present, always suspicious, in section Tags; the Total Bitrate entry exists
(in section File) and is suspicious exactly per the bitrate/width rule. -/
def C7Prop (now : String) (tab : Tab) (api : Option ApiResult) : Prop :=
  (∀ i ∈ buildFingerprint now tab api, i.label = "GPS Location" →
      i.sect = some "Location"
      ∧ (i.suspicious = true ↔ truthyS ((realMeta api).tags.getD {}).gps_location = false))
  ∧ (∃ i ∈ buildFingerprint now tab api, i.label = "GPS Location")
  ∧ (∀ i ∈ buildFingerprint now tab api, i.label = "Encoder" →
      i.suspicious = true ∧ i.sect = some "Tags")
  ∧ ((∃ i ∈ buildFingerprint now tab api, i.label = "Encoder")
      ↔ truthyS ((realMeta api).tags.getD {}).encoder = true)
  ∧ (∀ i ∈ buildFingerprint now tab api, i.label = "Total Bitrate" →
      i.sect = some "File"
      ∧ (i.suspicious = true
         ↔ bitrateSuspicious ((realMeta api).file_info.getD {}).total_bitrate_kbps
             ((realMeta api).video.getD {}).width = true))
  ∧ (∃ i ∈ buildFingerprint now tab api, i.label = "Total Bitrate")

/-- C10: the authentication outcome is independent of the password. -/
theorem C10_password_independent :
    (∀ e p1 p2 st, handleSubmitLogin e p1 st = handleSubmitLogin e p2 st)
    ∧ (∀ n1 n2 e p1 p2 st, handleSubmitSignup n1 e p1 st = handleSubmitSignup n2 e p2 st)
    ∧ (∀ n e p st, handleSubmitLogin e p st = handleSubmitSignup n e p st)
    ∧ (∀ e p st, (handleSubmitLogin e p st).user = some { email := e }
        ∧ (handleSubmitLogin e p st).storage = some (userJson e)
        ∧ isAuthenticated (handleSubmitLogin e p st) = true)
    ∧ (∀ st, (logout st).storage = none ∧ isAuthenticated (logout st) = false) :=
  ⟨fun _ _ _ _ => rfl, fun _ _ _ _ _ _ => rfl, fun _ _ _ _ => rfl,
   fun _ _ _ => ⟨rfl, rfl, rfl⟩, fun _ => ⟨rfl, rfl⟩⟩

/-- C8: the health probe returns true exactly on a 2xx response, returns
false (rather than throwing) on a network error, and a false probe makes
`analyzeFile` abort without ever starting the analysis request. -/
theorem C8_health_probe :
    (∀ s, checkBackendHealth (FetchOutcome.response s) = true ↔ (200 ≤ s ∧ s ≤ 299))
    ∧ checkBackendHealth FetchOutcome.networkError = false
    ∧ (∀ file ti ui h fd, checkBackendHealth h = false →
        analyzeFile file ti ui h ≠ AnalyzeOutcome.started fd) := by
  refine ⟨fun s => ?_, rfl, fun file ti ui h fd hh => ?_⟩
  · simp only [checkBackendHealth, resOk]
    split <;> simp_all
  · unfold analyzeFile
    split
    · simp
    · simp
    

/-- C8 witness: the probe accepts status 200 and a network error aborts the
flow before analysis. -/
theorem C8_health_probe_witness :
    checkBackendHealth (FetchOutcome.response 200) = true
    ∧ analyzeFile (some { name := "clip.mp4", size := 1 }) "" "" FetchOutcome.networkError
        ≠ AnalyzeOutcome.started { video := some { name := "clip.mp4", size := 1 } } :=
  ⟨(C8_health_probe.1 200).mpr (by decide),
   C8_health_probe.2.2 (some { name := "clip.mp4", size := 1 }) "" "" FetchOutcome.networkError
     { video := some { name := "clip.mp4", size := 1 } } rfl⟩

/-- C3 counterexample: `analyzeContent` called with both an uploaded file and
a non-empty text query builds a request containing both the binary `video`
field and the text `query` field at once — no InvalidRequest rejection
exists on this path. -/
theorem C3_counterexample :
    (analyzeContent (some { name := "clip.mp4", size := 1 }) (some "check this claim")).video
      = some { name := "clip.mp4", size := 1 }
    ∧ (analyzeContent (some { name := "clip.mp4", size := 1 }) (some "check this claim")).query
      = some "check this claim" := by
  constructor <;> rfl

/-- C3 (amended): the client never sends a request with neither kind of
input — the analyze button's guard returns early when the file is absent and
both text fields are blank — but nothing prevents a request carrying both a
file and a text query, and no client-side InvalidRequest check exists. -/
theorem C3_some_input_present (file : Option JsFile) (ti ui : String)
    (h : FetchOutcome) (fd : FormData)
    (hs : analyzeFile file ti ui h = AnalyzeOutcome.started fd) :
    fd.video.isSome = true ∨ fd.query.isSome = true := by
  unfold analyzeFile at hs
  split at hs
  · exact absurd hs (by simp)
  · split at hs
    · exact absurd hs (by simp)
    · rename_i hguard _
      have hfd : fd = startRealAnalysisRequest file ti ui := by
        injection hs with h1
        exact h1.symm
      subst hfd
      cases file with
      | some f => exact Or.inl rfl
      | none =>
        right
        have hne : jsOrStr ti ui ≠ "" := by
          unfold jsOrStr
          by_cases hti : ti = ""
          · subst hti
            intro hui
            have hui2 : ui = "" := by simpa using hui
            exact hguard ⟨rfl, rfl, by rw [hui2]; rfl⟩
          · simp only [if_neg hti]
            exact hti
        unfold startRealAnalysisRequest analyzeContent
        simp only [if_neg hne, Option.isSome_some]

/-- C3 witness: a text-only submission starts an analysis whose request has a
query field and no file. -/
theorem C3_some_input_present_witness :
    ({ query := some "hello" } : FormData).video.isSome = true
    ∨ ({ query := some "hello" } : FormData).query.isSome = true :=
  C3_some_input_present none "hello" "" (FetchOutcome.response 200)
    { query := some "hello" } (by decide)

/-- Extracts the component facts of `hasRealData api = false`. -/
theorem no_real_data_fields (api : Option ApiResult) (h : hasRealData api = false) :
    videoML api = none ∧ textML api = none ∧ api.bind ApiResult.metadata = none
    ∧ realScore api = none := by
  simp only [hasRealData, hasMetadata, hasML, Bool.or_eq_false_iff] at h
  obtain ⟨⟨hm, hv, ht⟩, hs⟩ := h
  refine ⟨?_, ?_, ?_, ?_⟩
  · exact Option.not_isSome_iff_eq_none.mp (by simp [hv])
  · exact Option.not_isSome_iff_eq_none.mp (by simp [ht])
  · exact Option.not_isSome_iff_eq_none.mp (by simp [hm])
  · exact Option.not_isSome_iff_eq_none.mp (by simp [realScore, hs])

/-- C2 counterexample: an API response with no detector evidence at all (no
score, no metadata, no ML analysis) is presented as the hard-coded mock
result — the numeric score 18 and the fabricated verdict "AI-Generated" —
rather than any unknown/neutral sentinel. -/
theorem C2_counterexample :
    hasRealData (some emptyApi) = false
    ∧ (buildResult "" Tab.video (some emptyApi)).score = 18
    ∧ (buildResult "" Tab.video (some emptyApi)).status = "AI-Generated"
    ∧ (buildResult "" Tab.video (some emptyApi)).status ≠ "unknown" := by
  refine ⟨rfl, rfl, rfl, by decide⟩

/-- C2 (amended): when the API result carries no score, no metadata and no
ML analysis, the dashboard falls back to the mock table of the active tab:
the presented score, verdict and fingerprint are the mock ones, not an
unknown sentinel. -/
theorem C2_mock_fallback (now : String) (tab : Tab) (api : Option ApiResult)
    (h : hasRealData api = false) :
    (buildResult now tab api).score = (mockResults now tab).score
    ∧ (buildResult now tab api).status = (mockResults now tab).status
    ∧ (buildResult now tab api).fingerprint = (mockResults now tab).fingerprint := by
  obtain ⟨hv, ht, hm, hs⟩ := no_real_data_fields api h
  refine ⟨?_, ?_, ?_⟩
  · simp [buildResult, hs]
  · simp [buildResult, buildStatus, hv, ht, h]
  · simp [buildResult, buildFingerprint, h]

/-- C2 witness: the amended fallback evaluated on the empty response. -/
theorem C2_mock_fallback_witness :
    (buildResult "" Tab.audio (some emptyApi)).score = (mockResults "" Tab.audio).score
    ∧ (buildResult "" Tab.audio (some emptyApi)).status = (mockResults "" Tab.audio).status
    ∧ (buildResult "" Tab.audio (some emptyApi)).fingerprint = (mockResults "" Tab.audio).fingerprint :=
  C2_mock_fallback "" Tab.audio (some emptyApi) rfl

/-- C4 counterexample: a response containing no drift data yields a drift
timeline populated with the non-empty synthetic mock series instead of being
omitted. -/
theorem C4_counterexample :
    (some emptyApi : Option ApiResult).bind ApiResult.drift_data = none
    ∧ (buildResult "" Tab.video (some emptyApi)).driftData = (mockResults "" Tab.video).driftData
    ∧ (mockResults "" Tab.video).driftData ≠ [] := by
  refine ⟨rfl, rfl, by decide⟩

/-- C4 (amended): whenever the response carries no (or an empty) drift trace,
the dashboard substitutes the hard-coded mock drift series of the active tab;
the drift timeline is never omitted. -/
theorem C4_drift_mock_substitution (now : String) (tab : Tab) (api : Option ApiResult)
    (h : api.bind ApiResult.drift_data = none ∨ api.bind ApiResult.drift_data = some []) :
    (buildResult now tab api).driftData = (mockResults now tab).driftData := by
  rcases h with h | h <;> simp [buildResult, h]

/-- C4 witness: the amended substitution evaluated on the empty response. -/
theorem C4_drift_mock_substitution_witness :
    (buildResult "" Tab.text (some emptyApi)).driftData = (mockResults "" Tab.text).driftData :=
  C4_drift_mock_substitution "" Tab.text (some emptyApi) (Or.inl rfl)

/-- C9: with any real data present, the anomaly list is exactly the items
derived from the response (risk flags plus the synthesized deepfake/AI-text
entries) — independent of the active tab, hence never mixed with the mock
anomalies — and it can legitimately be empty. -/
theorem C9_real_anomalies :
    (∀ now tab tab2 api, hasRealData api = true →
      buildAnomalies now tab api = anomalyItems api
      ∧ buildAnomalies now tab api = buildAnomalies now tab2 api)
    ∧ (∃ api, hasRealData api = true ∧ anomalyItems api = []) := by
  constructor
  · intro now tab tab2 api h
    constructor <;> simp [buildAnomalies, h]
  · exact ⟨some apiScoreOnly, rfl, rfl⟩

/-- C9 witness: the real-data branch evaluated on the score-only response,
whose anomaly list is empty. -/
theorem C9_real_anomalies_witness :
    buildAnomalies "" Tab.video (some apiScoreOnly) = anomalyItems (some apiScoreOnly)
    ∧ buildAnomalies "" Tab.video (some apiScoreOnly)
      = buildAnomalies "" Tab.image (some apiScoreOnly) :=
  C9_real_anomalies.1 "" Tab.video Tab.image (some apiScoreOnly) rfl

/-- The three 75/45 tiers color and iconify consistently. -/
theorem tier_coloring (s : ℚ) :
    (riskConfig (riskOfScore s)).map RiskCfg.color = some (scoreColor s)
    ∧ iconOfRisk (riskOfScore s) = some (statusIcon s)
    ∧ getScoreColor s = scoreColor s := by
  unfold riskOfScore scoreColor statusIcon getScoreColor
  split_ifs <;> exact ⟨rfl, rfl, rfl⟩

/-- Risk/score tier agreement of the merged result implies all of `C1Prop`. -/
theorem C1Prop_of (now : String) (tab : Tab) (api : Option ApiResult)
    (h : (buildResult now tab api).risk = riskOfScore (buildResult now tab api).score) :
    C1Prop now tab api := by
  refine ⟨h, ?_, ?_, (tier_coloring _).2.2⟩
  · rw [h]
    exact (tier_coloring _).1
  · rw [h]
    exact (tier_coloring _).2.1

/-- C1 counterexample: the merge takes score and risk independently, so a
response carrying only `score = 10` on the image tab displays score 10 with
risk "low" (the image mock's risk), although the fixed thresholds demand
"high" for a score below 45. -/
theorem C1_counterexample :
    (buildResult "" Tab.image (some apiScoreOnly)).score = 10
    ∧ (buildResult "" Tab.image (some apiScoreOnly)).risk = "low"
    ∧ riskOfScore (buildResult "" Tab.image (some apiScoreOnly)).score = "high" := by
  refine ⟨rfl, rfl, by decide⟩

/-- C1 (amended): risk and score of the merged result are tier-consistent,
and the 75/45 threshold coloring of the score ring, risk badge and status
icon matches, provided the API response is itself tier-consistent (supplies
score and risk_level either both absent — the mock table is consistent — or
both present and matching, as the spec requires of the backend). -/
theorem C1_tier_consistency (now : String) (tab : Tab) (api : Option ApiResult)
    (h : apiConsistent api) : C1Prop now tab api := by
  apply C1Prop_of
  cases api with
  | none =>
    cases tab
    · exact (by decide : ("high" : String) = riskOfScore 18)
    · exact (by decide : ("high" : String) = riskOfScore 31)
    · exact (by decide : ("medium" : String) = riskOfScore 72)
    · exact (by decide : ("low" : String) = riskOfScore 91)
  | some a =>
    rcases h with ⟨hs, hr⟩ | ⟨s, hs, hr⟩
    · have h1 : realScore (some a) = none := by simp [realScore, hs]
      have h2 : realRiskLevel (some a) = none := by simp [realRiskLevel, hr]
      simp only [buildResult, h1, h2, Option.getD_none]
      cases tab
      · exact (by decide : ("high" : String) = riskOfScore 18)
      · exact (by decide : ("high" : String) = riskOfScore 31)
      · exact (by decide : ("medium" : String) = riskOfScore 72)
      · exact (by decide : ("low" : String) = riskOfScore 91)
    · have h1 : realScore (some a) = some s := by simp [realScore, hs]
      have h2 : realRiskLevel (some a) = some (riskOfScore s) := by simp [realRiskLevel, hr]
      simp [buildResult, h1, h2]

/-- C1 witness: the consistency evaluated on the mock-only video report. -/
theorem C1_tier_consistency_witness : C1Prop "" Tab.video none :=
  C1_tier_consistency "" Tab.video none trivial

/-- Every field of the mock table except the image fingerprint (whose
Timestamp entry embeds the formatted wall-clock time) is independent of the
clock. -/
theorem mockResults_fields_clock_free (now1 now2 : String) (tab : Tab) :
    (mockResults now1 tab).score = (mockResults now2 tab).score
    ∧ (mockResults now1 tab).risk = (mockResults now2 tab).risk
    ∧ (mockResults now1 tab).status = (mockResults now2 tab).status
    ∧ (mockResults now1 tab).confidence = (mockResults now2 tab).confidence
    ∧ (mockResults now1 tab).anomalies = (mockResults now2 tab).anomalies
    ∧ (mockResults now1 tab).insights = (mockResults now2 tab).insights
    ∧ (mockResults now1 tab).timeline = (mockResults now2 tab).timeline
    ∧ (mockResults now1 tab).driftData = (mockResults now2 tab).driftData := by
  cases tab <;> exact ⟨rfl, rfl, rfl, rfl, rfl, rfl, rfl, rfl⟩

/-- C5 counterexample: the mock image fingerprint contains a Timestamp entry
read from the wall clock, so two constructions of the report at different
times differ — the construction is not a pure function of the detector
results and the request. -/
theorem C5_counterexample :
    buildResult "1/1/2026, 10:00:00 am" Tab.image none
      ≠ buildResult "2/2/2026, 11:11:11 pm" Tab.image none := by
  intro hEq
  have hf := congrArg ResultObj.fingerprint hEq
  exact absurd hf (by decide)

/-- C5 (amended): the construction is deterministic in its inputs whenever
the response carries real data (the only clock-dependent field is the mock
image fingerprint's Timestamp entry, used only on the no-real-data path). -/
theorem C5_determinism (now1 now2 : String) (tab : Tab) (api : Option ApiResult)
    (h : hasRealData api = true) :
    buildResult now1 tab api = buildResult now2 tab api := by
  obtain ⟨h1, h2, h3, h4, h5, h6, h7, h8⟩ := mockResults_fields_clock_free now1 now2 tab
  simp only [buildResult, ResultObj.mk.injEq]
  refine ⟨?_, ?_, ?_, ?_, ?_, ?_, ?_, ?_, ?_⟩
  · rw [h1]
  · rw [h2]
  · simp only [buildStatus]
    rw [h3]
  · rw [h4]
  · simp [buildFingerprint, h]
  · simp [buildAnomalies, h]
  · simp only [buildInsights]
    rw [h6]
  · cases hd : api.bind ApiResult.drift_data <;> simp [hd, h8]
  · rw [h7]

/-- C5 witness: determinism evaluated on the score-only response. -/
theorem C5_determinism_witness :
    buildResult "10:00" Tab.video (some apiScoreOnly)
      = buildResult "11:00" Tab.video (some apiScoreOnly) :=
  C5_determinism "10:00" "11:00" Tab.video (some apiScoreOnly) rfl

/-- C6: an upload beyond 500MB is rejected with ContentTooLarge before any
analysis — zero detectors invoked, zero content persisted — while uploads at
or below the limit are never rejected for size.  (The endpoint/store are
modelled from the spec; the frontend performs no size check of its own, it
only displays the "Max 500MB" label.) -/
theorem C6_size_limit (sizeMB : ℚ) (m : Modality) :
    (sizeMB > 500 →
      handleUpload sizeMB m
        = { error := some AnalyzeError.contentTooLarge, detectorsInvoked := 0,
            contentPersisted := false })
    ∧ (sizeMB ≤ 500 → (handleUpload sizeMB m).error ≠ some AnalyzeError.contentTooLarge) := by
  constructor
  · intro hgt
    simp [handleUpload, MAX_UPLOAD_MB, hgt]
  · intro hle
    have : ¬ sizeMB > MAX_UPLOAD_MB := by simp [MAX_UPLOAD_MB]; linarith
    simp [handleUpload, this]

/-- C6 witness: the spec's 600MB scenario is rejected with no detectors and
no persistence, and a 400MB upload passes the size gate. -/
theorem C6_size_limit_witness :
    handleUpload 600 Modality.video
      = { error := some AnalyzeError.contentTooLarge, detectorsInvoked := 0,
          contentPersisted := false }
    ∧ (handleUpload 400 Modality.video).error ≠ some AnalyzeError.contentTooLarge :=
  ⟨(C6_size_limit 600 Modality.video).1 (by norm_num),
   (C6_size_limit 400 Modality.video).2 (by norm_num)⟩

/-- Membership in an optional singleton comes from its maker. -/
theorem mem_optItemS {x : Option String} {mk : String → FingerprintItem} {i : FingerprintItem}
    (h : i ∈ optItemS x mk) : ∃ s, i = mk s := by
  cases x with
  | none => simp [optItemS] at h
  | some s =>
    unfold optItemS at h
    split at h
    · simp at h
      exact ⟨_, h.2⟩
    · simp at h

/-- Every File-section entry is either the Total Bitrate entry with its rule,
or carries none of the three claim-relevant labels. -/
theorem mem_fileItems {md : ApiMetadata} {fi : FileInfo} {vid : VideoMeta} {i : FingerprintItem}
    (h : i ∈ fileItems md fi vid) :
    (i.label = "Total Bitrate" ∧ i.sect = some "File"
      ∧ i.suspicious = bitrateSuspicious fi.total_bitrate_kbps vid.width)
    ∨ (i.label ≠ "Total Bitrate" ∧ i.label ≠ "GPS Location" ∧ i.label ≠ "Encoder") := by
  simp only [fileItems, List.mem_cons, List.not_mem_nil, or_false] at h
  rcases h with rfl | rfl | rfl | rfl | rfl | rfl
  · right; refine ⟨?_, ?_, ?_⟩ <;> simp
  · right; refine ⟨?_, ?_, ?_⟩ <;> simp
  · right; refine ⟨?_, ?_, ?_⟩ <;> simp
  · right; refine ⟨?_, ?_, ?_⟩ <;> simp
  · left; exact ⟨rfl, rfl, rfl⟩
  · right; refine ⟨?_, ?_, ?_⟩ <;> simp

/-- The Total Bitrate entry is always present in the File section. -/
theorem tb_mem_fileItems (md : ApiMetadata) (fi : FileInfo) (vid : VideoMeta) :
    ∃ i ∈ fileItems md fi vid, i.label = "Total Bitrate" := by
  unfold fileItems
  exact ⟨_, List.mem_cons_of_mem _ (List.mem_cons_of_mem _ (List.mem_cons_of_mem _
    (List.mem_cons_of_mem _ (List.mem_cons_self _ _)))), rfl⟩

/-- No Video-section entry carries a claim-relevant label. -/
theorem mem_videoItems {vid : VideoMeta} {i : FingerprintItem} (h : i ∈ videoItems vid) :
    i.label ≠ "Total Bitrate" ∧ i.label ≠ "GPS Location" ∧ i.label ≠ "Encoder" := by
  unfold videoItems at h
  split at h
  · simp at h
  · split at h
    · simp at h
    · simp only [List.append_assoc, List.mem_append, List.mem_cons, List.not_mem_nil,
        or_false] at h
      rcases h with (rfl | rfl | rfl | rfl | rfl | rfl | rfl | rfl) | h | h
      · refine ⟨?_, ?_, ?_⟩ <;> simp
      · refine ⟨?_, ?_, ?_⟩ <;> simp
      · refine ⟨?_, ?_, ?_⟩ <;> simp
      · refine ⟨?_, ?_, ?_⟩ <;> simp
      · refine ⟨?_, ?_, ?_⟩ <;> simp
      · refine ⟨?_, ?_, ?_⟩ <;> simp
      · refine ⟨?_, ?_, ?_⟩ <;> simp
      · refine ⟨?_, ?_, ?_⟩ <;> simp
      · split at h
        · split at h
          · simp at h
          · simp at h
            subst h
            refine ⟨?_, ?_, ?_⟩ <;> simp
        · simp at h
      · split at h
        · split at h
          · simp at h
            subst h
            refine ⟨?_, ?_, ?_⟩ <;> simp
          · simp at h
        · simp at h

/-- No Audio-section entry carries a claim-relevant label. -/
theorem mem_audioItems {aud : AudioMeta} {i : FingerprintItem} (h : i ∈ audioItems aud) :
    i.label ≠ "Total Bitrate" ∧ i.label ≠ "GPS Location" ∧ i.label ≠ "Encoder" := by
  unfold audioItems at h
  split at h
  · simp at h
  · split at h
    · simp at h
    · simp only [List.append_assoc, List.mem_append, List.mem_cons, List.not_mem_nil,
        or_false] at h
      rcases h with (rfl | rfl | rfl | rfl) | h
      · refine ⟨?_, ?_, ?_⟩ <;> simp
      · refine ⟨?_, ?_, ?_⟩ <;> simp
      · refine ⟨?_, ?_, ?_⟩ <;> simp
      · refine ⟨?_, ?_, ?_⟩ <;> simp
      · obtain ⟨s, rfl⟩ := mem_optItemS h
        refine ⟨?_, ?_, ?_⟩ <;> simp

/-- No Device-section entry carries a claim-relevant label. -/
theorem mem_deviceItems {tags : MediaTags} {i : FingerprintItem} (h : i ∈ deviceItems tags) :
    i.label ≠ "Total Bitrate" ∧ i.label ≠ "GPS Location" ∧ i.label ≠ "Encoder" := by
  unfold deviceItems at h
  simp only [List.mem_append] at h
  rcases h with (h | h) | h <;>
    (obtain ⟨s, rfl⟩ := mem_optItemS h; refine ⟨?_, ?_, ?_⟩ <;> simp)

/-- The Location section holds exactly the GPS entry, suspicious exactly when
the tag is falsy. -/
theorem mem_gpsItems {tags : MediaTags} {i : FingerprintItem} (h : i ∈ gpsItems tags) :
    i.label = "GPS Location" ∧ i.sect = some "Location"
    ∧ i.suspicious = !truthyS tags.gps_location := by
  unfold gpsItems at h
  cases hg : tags.gps_location with
  | none =>
    rw [hg] at h
    simp at h
    subst h
    refine ⟨rfl, rfl, ?_⟩
    simp [truthyS, hg]
  | some g =>
    rw [hg] at h
    by_cases hge : g = ""
    · simp [hge] at h
      subst h
      refine ⟨rfl, rfl, ?_⟩
      simp [truthyS, hge]
    · simp [hge] at h
      subst h
      refine ⟨rfl, rfl, ?_⟩
      simp [truthyS, hge]

/-- The GPS entry always exists. -/
theorem gps_exists (tags : MediaTags) : ∃ i ∈ gpsItems tags, i.label = "GPS Location" := by
  unfold gpsItems
  split
  · split
    · exact ⟨_, List.mem_singleton_self _, rfl⟩
    · exact ⟨_, List.mem_singleton_self _, rfl⟩
  · exact ⟨_, List.mem_singleton_self _, rfl⟩

/-- Every Tags-section entry is either the (always suspicious) Encoder entry
or carries none of the three claim-relevant labels. -/
theorem mem_tagItems {tags : MediaTags} {i : FingerprintItem} (h : i ∈ tagItems tags) :
    (i.label = "Encoder" ∧ i.suspicious = true ∧ i.sect = some "Tags")
    ∨ (i.label ≠ "Encoder" ∧ i.label ≠ "GPS Location" ∧ i.label ≠ "Total Bitrate") := by
  unfold tagItems at h
  simp only [List.append_assoc, List.mem_append] at h
  rcases h with h | h | h | h | h <;> obtain ⟨s, rfl⟩ := mem_optItemS h
  · right; refine ⟨?_, ?_, ?_⟩ <;> simp
  · left; exact ⟨rfl, rfl, rfl⟩
  · right; refine ⟨?_, ?_, ?_⟩ <;> simp
  · right; refine ⟨?_, ?_, ?_⟩ <;> simp
  · right; refine ⟨?_, ?_, ?_⟩ <;> simp

/-- A truthy encoder tag yields an Encoder entry in the Tags section. -/
theorem encoder_mem_tagItems {tags : MediaTags} (h : truthyS tags.encoder = true) :
    ∃ i ∈ tagItems tags, i.label = "Encoder" := by
  cases he : tags.encoder with
  | none => rw [he] at h; simp [truthyS] at h
  | some e =>
    rw [he] at h
    have hne : e ≠ "" := by simpa [truthyS] using h
    refine ⟨{ label := "Encoder", value := e, suspicious := true, sect := some "Tags" }, ?_, rfl⟩
    unfold tagItems optItemS
    rw [he]
    simp [hne]

/-- A falsy encoder tag yields no Encoder entry in the Tags section. -/
theorem no_encoder_tagItems {tags : MediaTags} (hf : truthyS tags.encoder = false) :
    ∀ i ∈ tagItems tags, i.label ≠ "Encoder" := by
  intro i h
  unfold tagItems at h
  simp only [List.append_assoc, List.mem_append] at h
  rcases h with h | h | h | h | h
  · obtain ⟨s, rfl⟩ := mem_optItemS h; simp
  · cases he : tags.encoder with
    | none => rw [he] at h; simp [optItemS] at h
    | some e =>
      rw [he] at h
      have he2 : e = "" := by simpa [truthyS, he] using hf
      rw [he2] at h
      simp [optItemS] at h
  · obtain ⟨s, rfl⟩ := mem_optItemS h; simp
  · obtain ⟨s, rfl⟩ := mem_optItemS h; simp
  · obtain ⟨s, rfl⟩ := mem_optItemS h; simp

/-- C7: on real metadata the fingerprint's GPS entry exists in section
Location and is suspicious iff the gps_location tag is absent; an Encoder
entry exists iff the encoder tag is present and is then always suspicious (in
section Tags); the Total Bitrate entry exists in section File and is
suspicious iff the bitrate is positive, below 2000 kbps, at width ≥ 1920. -/
theorem C7_fingerprint_rules (now : String) (tab : Tab) (api : Option ApiResult)
    (h : hasRealData api = true) : C7Prop now tab api := by
  have hbf : buildFingerprint now tab api =
      fileItems (realMeta api) ((realMeta api).file_info.getD {}) ((realMeta api).video.getD {})
      ++ videoItems ((realMeta api).video.getD {})
      ++ audioItems ((realMeta api).audio.getD {})
      ++ deviceItems ((realMeta api).tags.getD {})
      ++ gpsItems ((realMeta api).tags.getD {})
      ++ tagItems ((realMeta api).tags.getD {}) := by
    simp [buildFingerprint, h]
  unfold C7Prop
  rw [hbf]
  refine ⟨?_, ?_, ?_, ?_, ?_, ?_⟩
  · intro i hi hlab
    simp only [List.append_assoc, List.mem_append] at hi
    rcases hi with hi | hi | hi | hi | hi | hi
    · rcases mem_fileItems hi with ⟨hl, _, _⟩ | ⟨_, hn, _⟩
      · rw [hl] at hlab
        simp at hlab
      · exact absurd hlab hn
    · exact absurd hlab (mem_videoItems hi).2.1
    · exact absurd hlab (mem_audioItems hi).2.1
    · exact absurd hlab (mem_deviceItems hi).2.1
    · obtain ⟨_, hsect, hsusp⟩ := mem_gpsItems hi
      refine ⟨hsect, ?_⟩
      rw [hsusp]
      cases truthyS ((realMeta api).tags.getD {}).gps_location <;> simp
    · rcases mem_tagItems hi with ⟨hl, _, _⟩ | ⟨_, hn, _⟩
      · rw [hl] at hlab
        simp at hlab
      · exact absurd hlab hn
  · obtain ⟨i, hi, hl⟩ := gps_exists ((realMeta api).tags.getD {})
    exact ⟨i, List.mem_append_left _ (List.mem_append_right _ hi), hl⟩
  · intro i hi hlab
    simp only [List.append_assoc, List.mem_append] at hi
    rcases hi with hi | hi | hi | hi | hi | hi
    · rcases mem_fileItems hi with ⟨hl, _, _⟩ | ⟨_, _, hn⟩
      · rw [hl] at hlab
        simp at hlab
      · exact absurd hlab hn
    · exact absurd hlab (mem_videoItems hi).2.2
    · exact absurd hlab (mem_audioItems hi).2.2
    · exact absurd hlab (mem_deviceItems hi).2.2
    · rw [(mem_gpsItems hi).1] at hlab
      simp at hlab
    · rcases mem_tagItems hi with ⟨_, hs, hsec⟩ | ⟨hn, _, _⟩
      · exact ⟨hs, hsec⟩
      · exact absurd hlab hn
  · constructor
    · rintro ⟨i, hi, hlab⟩
      by_contra hft
      have hf : truthyS ((realMeta api).tags.getD {}).encoder = false := by
        simpa using hft
      simp only [List.append_assoc, List.mem_append] at hi
      rcases hi with hi | hi | hi | hi | hi | hi
      · rcases mem_fileItems hi with ⟨hl, _, _⟩ | ⟨_, _, hn⟩
        · rw [hl] at hlab
          simp at hlab
        · exact absurd hlab hn
      · exact absurd hlab (mem_videoItems hi).2.2
      · exact absurd hlab (mem_audioItems hi).2.2
      · exact absurd hlab (mem_deviceItems hi).2.2
      · rw [(mem_gpsItems hi).1] at hlab
        simp at hlab
      · exact absurd hlab (no_encoder_tagItems hf i hi)
    · intro ht
      obtain ⟨i, hi, hl⟩ := encoder_mem_tagItems ht
      exact ⟨i, List.mem_append_right _ hi, hl⟩
  · intro i hi hlab
    simp only [List.append_assoc, List.mem_append] at hi
    rcases hi with hi | hi | hi | hi | hi | hi
    · rcases mem_fileItems hi with ⟨_, hsect, hsusp⟩ | ⟨hn, _, _⟩
      · refine ⟨hsect, ?_⟩
        rw [hsusp]
      · exact absurd hlab hn
    · exact absurd hlab (mem_videoItems hi).1
    · exact absurd hlab (mem_audioItems hi).1
    · exact absurd hlab (mem_deviceItems hi).1
    · rw [(mem_gpsItems hi).1] at hlab
      simp at hlab
    · rcases mem_tagItems hi with ⟨hl, _, _⟩ | ⟨_, _, hn⟩
      · rw [hl] at hlab
        simp at hlab
      · exact absurd hlab hn
  · obtain ⟨i, hi, hl⟩ := tb_mem_fileItems (realMeta api) ((realMeta api).file_info.getD {})
      ((realMeta api).video.getD {})
    exact ⟨i, List.mem_append_left _ (List.mem_append_left _ (List.mem_append_left _
      (List.mem_append_left _ (List.mem_append_left _ hi)))), hl⟩

/-- C7 witness: the rules evaluated on sample metadata (encoder tag present,
GPS absent, 1500 kbps at width 1920). -/
theorem C7_fingerprint_rules_witness :
    hasRealData (some sampleApi) = true ∧ C7Prop "" Tab.video (some sampleApi) :=
  ⟨rfl, C7_fingerprint_rules "" Tab.video (some sampleApi) rfl⟩
